import Mathlib

/-!
Verification of the gazelle-origin program against its natural-language
specification.

This file contains a shallow embedding, in Lean 4, of the parts of
`gazelleorigin/core.py` and `gazelleorigin/__main__.py` that the verified
claims refer to, followed by theorems settling each claim.

Conventions used throughout:
* Python strings become `String`; Python lists become `List`.
* Python dictionaries with fixed key sets become structures or association
  lists (`List (String × _)`), preserving insertion order where the program
  relies on it.
* Fallible code (Python exceptions of type `GazelleAPIError`) becomes
  `Except GazelleAPIError _`.
* Interactive input (the stop/continue prompt of `ask_invalid`) is modelled
  by passing the resolved answer of the operator as an explicit argument.
* Filesystem access and the network transport are outside the embedding; the
  modelled claims only concern inputs that are not existing filesystem paths.
-/

namespace GazelleOrigin

/-- The single quote character (codepoint 39), written via `Char.ofNat` so it
can be used both in character lists and in string building. -/
def squote : Char := Char.ofNat 39

/-- The two-character string consisting of two single quotes.  This is the
value that `_make_table` in `core.py` compares each rendered value against. -/
def emptyScalar : String := String.mk [squote, squote]

/-- The `EXIT_CODES` dictionary of `__main__.py` (lines 23 to 32).  In Python,
indexing with a key outside the dictionary raises `KeyError`; the program only
ever indexes with the listed keys, and we return 0 for other keys. -/
def EXIT_CODES : String → Nat
  | "hash" => 3
  | "music" => 4
  | "unauthorized" => 5
  | "request" => 6
  | "request-json" => 7
  | "api-key" => 8
  | "tracker" => 9
  | "input-error" => 10
  | _ => 0

/-- The `GazelleAPIError` exception class of `core.py` (lines 18 to 25): an
error code string together with a message.  Its `__str__` returns the
message. -/
structure GazelleAPIError where
  code : String
  message : String
  deriving DecidableEq, Repr

/-- `str(e)` for a `GazelleAPIError e` (the `__str__` method returns
`self.message`). -/
def strOfError (e : GazelleAPIError) : String := e.message

/-- The outcome of the interactive prompt or of the policy decision: either
stop the whole run or continue past the current input. -/
inductive Decision
  | stop
  | cont
  deriving DecidableEq, Repr

/-- Model of `GazelleOrigin.ask_invalid` (`__main__.py` lines 132 to 144): the
method loops until the operator types `c` or `s` and returns the
corresponding decision.  The operator answer that the loop eventually
accepts is passed in as `answer`. -/
def ask_invalid (answer : Decision) : Decision := answer

/-- Model of `GazelleOrigin.handle_invalid` (`__main__.py` lines 147 to 155).
`ignore_invalid` is the string value of the `--ignore-invalid` option
(`argparse` restricts it to `stop`, `ask` or `continue`); `answer` is the
operator decision used when the mode is `ask`. -/
def handle_invalid (ignore_invalid : String) (answer : Decision) : Decision :=
  if ignore_invalid = "continue" then Decision.cont
  else if ignore_invalid = "ask" then ask_invalid answer
  else Decision.stop

/-! ### The status code carried inside a Request error message

`handle_input_torrent` recovers the HTTP status from the error message with
the expression `int(str(e).split('(status ')[-1][:-1])` (line 240 of
`__main__.py`).  We model Python `str.split` with separator `'(status '`
by a direct scan over the character list. -/

/-- The separator string `(status ` used by line 240 of `__main__.py`,
as a character list (it equals `"(status ".data`). -/
def statusSep : List Char := ['(', 's', 't', 'a', 't', 'u', 's', ' ']

/-- Model of Python `str.split` specialised to the separator `'(status '`:
scan left to right, splitting at each non-overlapping occurrence of the
separator.  `acc` holds the characters of the current piece in reverse.
The scan consumes at least one character per step, so running it with
`fuel` equal to the length of the list (as `pySplitStatus` below does)
always terminates the scan before the fuel runs out; the fuel argument
only makes the recursion structural. -/
def splitStatusGo : Nat → List Char → List Char → List (List Char)
  | _, [], acc => [acc.reverse]
  | 0, l, acc => [acc.reverse ++ l]
  | fuel + 1, c :: rest, acc =>
    if statusSep.isPrefixOf (c :: rest) then
      acc.reverse :: splitStatusGo fuel (rest.drop 7) []
    else
      splitStatusGo fuel rest (c :: acc)

/-- `str(e).split('(status ')` from line 240 of `__main__.py`. -/
def pySplitStatus (s : String) : List (List Char) :=
  splitStatusGo s.data.length s.data []

/-- Model of Python `int()` on a token of decimal digits: `none` where
Python raises `ValueError` (Python also accepts surrounding whitespace, a
sign and underscores, which never occur in the tokens this program parses). -/
def pyIntDigits (l : List Char) : Option Nat :=
  if l ≠ [] ∧ l.all Char.isDigit then
    some (l.foldl (fun n c => n * 10 + (c.toNat - 48)) 0)
  else none

/-- The expression `int(str(e).split('(status ')[-1][:-1])` from line 240 of
`__main__.py`: take the last piece of the split, drop the final character
(the closing parenthesis), and read the rest as a decimal number.  On the
messages the program actually builds the token is always numeric; where
Python `int` would raise we return 0. -/
def extractStatus (msg : String) : Nat :=
  (pyIntDigits (((pySplitStatus msg).getLastD []).dropLast)).getD 0

/-- Specification helper: the decimal digit characters of a natural number,
most significant digit first.  `natChars n` is proved below to coincide with
the characters of `Nat.repr n`. -/
def natChars (n : Nat) : List Char :=
  if _ : n < 10 then [Nat.digitChar n]
  else natChars (n / 10) ++ [Nat.digitChar (n % 10)]
  termination_by n
  decreasing_by exact Nat.div_lt_self (by omega) (by omega)

/-- The constant prefix of a `request` error message, up to and including the
`(status ` separator (`core.py` lines 44 and 45). -/
def requestMsgPrefix : String := "Could not retrieve origin data. Try again later. (status "

/-- The head of a `request` error message: everything before the `(status `
separator. -/
def requestMsgPrefixHead : String := "Could not retrieve origin data. Try again later. "

/-- The `GazelleAPIError` raised by `GazelleAPI.request` for a non-200,
non-401/403 HTTP status (`core.py` lines 43 to 45).  `Nat.repr` renders the
status code in decimal, as Python `str.format` does. -/
def requestError (status : Nat) : GazelleAPIError :=
  { code := "request"
    message := requestMsgPrefix ++ Nat.repr status ++ ")" }

/-- The `GazelleAPIError` raised by `GazelleAPI.request` for HTTP 401/403
(`core.py` lines 41 and 42); the message embeds the error text taken from the
JSON body of the response. -/
def unauthorizedError (errorText : String) : GazelleAPIError :=
  { code := "unauthorized"
    message := "Authentication error: " ++ errorText }

/-- The `GazelleAPIError` raised by `GazelleAPI.request` when the JSON body
does not report success (`core.py` lines 48 and 49). -/
def requestJsonError : GazelleAPIError :=
  { code := "request-json"
    message := "Could not retrieve origin data. Check the torrent ID/hash or try again later." }

/-- The `GazelleAPIError` raised by `GazelleAPI.get_torrent_info` for a
non-music torrent (`core.py` lines 67 and 68). -/
def musicError : GazelleAPIError :=
  { code := "music", message := "Not a music torrent" }

/-- Per-input outcome of the `except GazelleAPIError` block. -/
inductive FailureOutcome
  | skipped
  | exited (exitCode : Nat)
  deriving DecidableEq, Repr

/-- Model of the `except GazelleAPIError as e` handler in
`GazelleOrigin.handle_input_torrent` (`__main__.py` lines 235 to 248):

* if `handle_invalid()` says stop, the input is never skipped;
* otherwise, for a `request` error, the input is skipped exactly when the
  status parsed back out of the message is below 500 (the code comment on
  line 239 reads: if server returned 500 series error then stop because
  server might be having trouble);
* otherwise the input is skipped exactly when the error code is
  `request-json` or `music`.

A skipped input returns to the caller; a non-skipped failure calls
`sys.exit(EXIT_CODES[e.code])`. -/
def handle_api_error (ignore_invalid : String) (answer : Decision)
    (e : GazelleAPIError) : FailureOutcome :=
  let skip : Bool :=
    if handle_invalid ignore_invalid answer = Decision.stop then false
    else if e.code = "request" then decide (extractStatus (strOfError e) < 500)
    else decide (e.code = "request-json" ∨ e.code = "music")
  if skip then FailureOutcome.skipped else FailureOutcome.exited (EXIT_CODES e.code)

/-! ### Identifier resolution (`parse_torrent_input`) -/

/-- A character matched by the character class `[\da-fA-F]` of the regular
expression on line 168 of `__main__.py`.  Python `\d` also accepts non-ASCII
decimal digits; that generality is irrelevant to the verified claims and we
model the ASCII digits. -/
def isHexChar (c : Char) : Bool :=
  c.isDigit || ('a' ≤ c && c ≤ 'f') || ('A' ≤ c && c ≤ 'F')

/-- Whether a string matches `re.match(r'^[\da-fA-F]{40}$', torrent)` from
line 168 of `__main__.py`: exactly forty hexadecimal characters. -/
def matchesInfoHash (s : String) : Bool :=
  s.data.length == 40 && s.data.all isHexChar

/-- Whether a string matches `re.match(r'^\d+$', torrent)` from line 171 of
`__main__.py`: one or more decimal digits and nothing else. -/
def matchesNumericId (s : String) : Bool :=
  !s.data.isEmpty && s.data.all Char.isDigit

/-- Result of `parse_torrent_input` on an input that is not an existing
filesystem path: the Python function returns `{'hash': ...}`, `{'id': ...}`
or `None`. -/
inductive ParseResult
  | byHash (h : String)
  | byId (i : String)
  | invalid
  deriving DecidableEq, Repr

/-- The capture group of `re.match(r'.*torrentid=(\d+).*', torrent)` from
line 201 of `__main__.py`.  The greedy leading `.*` makes the engine take the
rightmost occurrence of `torrentid=` that is followed by at least one digit;
the group is the maximal digit run after it.  Because `.` does not match a
newline, only the part of the input before the first newline is searched. -/
def lastTorrentId : List Char → Option (List Char)
  | [] => none
  | c :: rest =>
    match lastTorrentId rest with
    | some ds => some ds
    | none =>
      if "torrentid=".data.isPrefixOf (c :: rest) then
        let ds := ((c :: rest).drop 10).takeWhile Char.isDigit
        if ds.isEmpty then none else some ds
      else none

/-- Model of `GazelleOrigin.parse_torrent_input` (`__main__.py` lines 162 to
204) for inputs that are not existing filesystem paths.  The two regular
expression rules on lines 167 to 172 are checked before the filesystem is
consulted, so for strings matched by them the result is independent of the
filesystem; the directory-walking and torrent-file branches (lines 173 to
199) perform I/O and are outside this embedding. -/
def parse_torrent_input (torrent : String) : ParseResult :=
  if matchesInfoHash torrent then ParseResult.byHash torrent
  else if matchesNumericId torrent then ParseResult.byId torrent
  else
    match lastTorrentId (torrent.data.takeWhile (fun c => c ≠ '\n')) with
    | some ds => ParseResult.byId (String.mk ds)
    | none => ParseResult.invalid

/-! ### HTML unescaping -/

/-- Model of Python `html.unescape` on the five most common entities.  The
library function knows the full HTML5 entity table; no verified claim
depends on entity decoding beyond the fact that strings without an
ampersand are returned unchanged. -/
def unescapeChars : List Char → List Char
  | [] => []
  | '&' :: 'a' :: 'm' :: 'p' :: ';' :: rest => '&' :: unescapeChars rest
  | '&' :: 'l' :: 't' :: ';' :: rest => '<' :: unescapeChars rest
  | '&' :: 'g' :: 't' :: ';' :: rest => '>' :: unescapeChars rest
  | '&' :: 'q' :: 'u' :: 'o' :: 't' :: ';' :: rest => '"' :: unescapeChars rest
  | '&' :: '#' :: '3' :: '9' :: ';' :: rest => squote :: unescapeChars rest
  | c :: rest => c :: unescapeChars rest

/-- Python `html.unescape` as used by `core.py`. -/
def htmlUnescape (s : String) : String := String.mk (unescapeChars s.data)

/-! ### The tracker client (`GazelleAPI.request`) -/

/-- The fields of the HTTP response that `GazelleAPI.request` inspects:
the status code, the `error` field of the JSON body (read on 401/403), the
top-level `status` field, and the top-level `response` payload. -/
structure HttpResponse (α : Type) where
  status_code : Nat
  errorJson : String
  jsonStatus : String
  response : α

/-- Model of `GazelleAPI.request` (`core.py` lines 35 to 51) once the HTTP
GET has returned `r`.  Transport failures and JSON decoding failures raise
exception types other than `GazelleAPIError` and are outside the
embedding. -/
def request {α : Type} (r : HttpResponse α) : Except GazelleAPIError α :=
  if r.status_code = 401 ∨ r.status_code = 403 then
    Except.error (unauthorizedError r.errorJson)
  else if r.status_code ≠ 200 then
    Except.error (requestError r.status_code)
  else if r.jsonStatus ≠ "success" then
    Except.error requestJsonError
  else
    Except.ok r.response

/-! ### The record formatter (`GazelleAPI.get_torrent_info`) -/

/-- One credited artist of the `musicInfo` object. -/
structure ArtistCredit where
  name : String
  deriving DecidableEq, Repr

/-- The `musicInfo` object of the release group.  The JSON key `with` is a
Lean keyword and is embedded as the field `with_`. -/
structure MusicInfo where
  artists : List ArtistCredit
  with_ : List ArtistCredit
  producer : List ArtistCredit
  remixedBy : List ArtistCredit
  dj : List ArtistCredit
  composers : List ArtistCredit
  conductor : List ArtistCredit
  deriving DecidableEq, Repr

/-- The fields of the `group` object that `get_torrent_info` reads.  A JSON
`null` or `0` year is falsy in Python; it is embedded as `0`. -/
structure GroupInfo where
  categoryName : String
  name : String
  musicInfo : MusicInfo
  releaseType : Nat
  tags : List String
  year : Nat
  recordLabel : String
  catalogueNumber : String
  wikiImage : String
  bbBody : String
  deriving DecidableEq, Repr

/-- The fields of the `torrent` object that `get_torrent_info` reads.  The
`infoHash` key may be absent (the source reads it with `.get`); it is
embedded as an `Option`. -/
structure TorrentDetails where
  remasterRecordLabel : String
  remasterCatalogueNumber : String
  remasterYear : Nat
  remasterTitle : String
  media : String
  hasLog : Bool
  logScore : Int
  format : String
  encoding : String
  filePath : String
  size : Nat
  fileCount : Nat
  infoHash : Option String
  time : String
  id : Nat
  fileList : String
  description : String
  deriving DecidableEq, Repr

/-- The `response` payload of a successful `torrent` API request. -/
structure TorrentInfoResponse where
  group : GroupInfo
  torrent : TorrentDetails
  deriving DecidableEq, Repr

/-- A value of the `info_dict` built on lines 107 to 137 of `core.py`:
either a Python string or an integer. -/
inductive Value
  | str (s : String)
  | int (n : Int)
  deriving DecidableEq, Repr

/-- The dictionary comprehension on line 107 of `core.py`: `html.unescape`
is applied to every string value and integers pass through. -/
def unescapeValue : Value → Value
  | Value.str s => Value.str (htmlUnescape s)
  | Value.int n => Value.int n

/-- The artist summary of lines 73 to 76 of `core.py`: for at most two
credited artists their names joined with ampersands, otherwise the literal
`Various Artists`. -/
def artistSummary (artists : List ArtistCredit) : String :=
  if artists.length ≤ 2 then
    String.intercalate " & " (artists.map ArtistCredit.name)
  else "Various Artists"

/-- The `delimited_artists` comprehension on lines 78 and 79 of `core.py`:
the names of one artist category joined with comma-space. -/
def delimitedNames (l : List ArtistCredit) : String :=
  String.intercalate ", " (l.map ArtistCredit.name)

/-- The `release_codes` dictionary of lines 82 to 98 of `core.py`. -/
def release_codes : Nat → Option String
  | 1 => some "Album"
  | 3 => some "Soundtrack"
  | 5 => some "EP"
  | 6 => some "Anthology"
  | 7 => some "Compilation"
  | 9 => some "Single"
  | 11 => some "Live album"
  | 13 => some "Remix"
  | 14 => some "Bootleg"
  | 15 => some "Interview"
  | 16 => some "Mixtape"
  | 17 => some "Demo"
  | 18 => some "Concert Recording"
  | 19 => some "DJ Mix"
  | 21 => some "Unknown"
  | _ => none

/-- Line 99 of `core.py`: `release_codes.get(group['releaseType'], "none")`. -/
def releaseTypes (n : Nat) : String := (release_codes n).getD "none"

/-- The expression `torrent.get("infoHash", hash or "Unknown")` on line 133
of `core.py`.  The lookup `hash` is falsy in Python exactly when it is
`None` or the empty string. -/
def infoHashField (infoHash : Option String) (hash : Option String) : String :=
  match infoHash with
  | some v => v
  | none =>
    match hash with
    | some h => if h = "" then "Unknown" else h
    | none => "Unknown"

/-- The `info_dict` of `core.py` lines 107 to 137: the ordered key/value
list, with `html.unescape` applied to every string value.  Zero years and a
missing log render as empty strings (Python falsiness, lines 113, 123 and
127); the `tags` key defaults on line 105 to an empty sequence when absent,
which joins to the empty string just as an empty list does. -/
def info_dict (hash : Option String) (group : GroupInfo) (torrent : TorrentDetails) :
    List (String × Value) :=
  ([("Artist", Value.str (artistSummary group.musicInfo.artists)),
    ("Name", Value.str group.name),
    ("Release type", Value.str (releaseTypes group.releaseType)),
    ("Record label", Value.str torrent.remasterRecordLabel),
    ("Catalog number", Value.str torrent.remasterCatalogueNumber),
    ("Edition year",
      if torrent.remasterYear = 0 then Value.str "" else Value.int (torrent.remasterYear : Int)),
    ("Edition", Value.str torrent.remasterTitle),
    ("Tags", Value.str (String.intercalate ", " group.tags)),
    ("Main artists", Value.str (delimitedNames group.musicInfo.artists)),
    ("Featured artists", Value.str (delimitedNames group.musicInfo.with_)),
    ("Producers", Value.str (delimitedNames group.musicInfo.producer)),
    ("Remix artists", Value.str (delimitedNames group.musicInfo.remixedBy)),
    ("DJs", Value.str (delimitedNames group.musicInfo.dj)),
    ("Composers", Value.str (delimitedNames group.musicInfo.composers)),
    ("Conductors", Value.str (delimitedNames group.musicInfo.conductor)),
    ("Original year",
      if group.year = 0 then Value.str "" else Value.int (group.year : Int)),
    ("Original release label", Value.str group.recordLabel),
    ("Original catalog number", Value.str group.catalogueNumber),
    ("Media", Value.str torrent.media),
    ("Log", Value.str (if torrent.hasLog then Int.repr torrent.logScore ++ "%" else "")),
    ("Format", Value.str torrent.format),
    ("Encoding", Value.str torrent.encoding),
    ("Directory", Value.str torrent.filePath),
    ("Size", Value.int (torrent.size : Int)),
    ("File count", Value.int (torrent.fileCount : Int)),
    ("Info hash", Value.str (infoHashField torrent.infoHash hash)),
    ("Uploaded", Value.str torrent.time),
    ("Permalink",
      Value.str ("https://redacted.ch/torrents.php?torrentid=" ++ Nat.repr torrent.id)),
    ("Cover", Value.str group.wikiImage)].map
    (fun kv => (kv.1, unescapeValue kv.2)))

/-- Simplified model of the condition under which the PyYAML emitter invoked
on line 139 of `core.py` single-quotes a non-empty scalar string (content
that would be misread as another scalar, or characters special to the
syntax).  No verified claim depends on which non-empty strings are quoted;
the claims use only the integer and empty-string cases of `yamlScalar`. -/
def yamlNeedsQuote (s : String) : Bool :=
  s.data.any (fun c => c = squote || c = ':' || c = '#' || c = '\n') ||
    s.data.all (fun c => c.isDigit || c = '-' || c = '.' || c = ' ')

/-- Model of the PyYAML scalar emitter for the single-line scalars this
program produces (`yaml.dump` with unbounded width, insertion order and
unicode allowed): integers print in decimal, the empty string prints as two
single quotes, a string needing quoting is wrapped in single quotes with
internal single quotes doubled, and other strings print plainly. -/
def yamlScalar : Value → String
  | Value.int n => Int.repr n
  | Value.str s =>
    if s = "" then emptyScalar
    else if yamlNeedsQuote s then
      String.mk ((squote :: (s.data.map (fun c => if c = squote then [squote, squote] else [c])).flatten) ++ [squote])
    else s

/-- One line of the `yaml.dump` output, already split at the first colon as
on line 143 of `core.py`: the key, and the raw remainder of the line (one
space followed by the emitted scalar).  The keys of `info_dict` contain no
colon and nothing the emitter would alter, so the key part of each dumped
line is the key itself. -/
def dump_pair (k : String) (v : Value) : String × String :=
  (k, " " ++ yamlScalar v)

/-- The replacement call on line 145 of `core.py`: every single quote
character is deleted from the value. -/
def removeSingleQuotes (s : String) : String :=
  String.mk (s.data.filter (fun c => c ≠ squote))

/-- The whitespace characters stripped by Python `str.strip()` on ASCII
text (Python also strips some rarer Unicode whitespace; the dumped lines
only ever begin or end with these). -/
def isPySpace (c : Char) : Bool :=
  c = ' ' || c = '\t' || c = '\n' || c = '\r' || c = '\x0b' || c = '\x0c'

/-- Python `str.strip()`: drop whitespace from both ends. -/
def pyStrip (s : String) : String :=
  String.mk (((s.data.dropWhile isPySpace).reverse.dropWhile isPySpace).reverse)

/-- Lines 144 to 146 of `core.py`: the value of one dumped line after the
post-processing loop.  Exactly for the keys `Uploaded` and `Encoding` every
single quote is removed; every value is then stripped of surrounding
whitespace. -/
def processedValue (k rawValue : String) : String :=
  pyStrip (if k = "Uploaded" ∨ k = "Encoding" then removeSingleQuotes rawValue else rawValue)

/-- The `out` dictionary of lines 141 to 146 of `core.py`, as an ordered
association list. -/
def out_pairs (d : List (String × Value)) : List (String × String) :=
  d.map (fun kv => (kv.1, processedValue kv.1 (dump_pair kv.1 kv.2).2))

/-- Python `str.ljust`. -/
def pyLjust (s : String) (width : Nat) : String :=
  s ++ String.mk (List.replicate (width - s.data.length) ' ')

/-- The key width computed on line 54 of `core.py`: the maximum unescaped
key length plus two.  Python `max` raises on an empty sequence; the
dictionary passed by `get_torrent_info` is never empty, and on a nonempty
list of lengths the fold with seed 0 agrees with `max`. -/
def tableKeyWidth (d : List (String × String)) : Nat :=
  (d.map (fun kv => (htmlUnescape kv.1).data.length)).foldl Nat.max 0 + 2

/-- One output line of `_make_table` (lines 56 to 59 of `core.py`): a value
equal to two single quotes is replaced by a tilde, and the unescaped key,
with a colon appended, is left-justified to the key width. -/
def tableRow (k_width : Nat) (k v : String) : String :=
  pyLjust (htmlUnescape (k ++ ":")) k_width ++ (if v = emptyScalar then "~" else v) ++ "\n"

/-- `GazelleAPI._make_table` (`core.py` lines 53 to 60). -/
def make_table (d : List (String × String)) : String :=
  String.join (d.map (fun kv => tableRow (tableKeyWidth d) kv.1 kv.2))

/-- The stages of the record built by `get_torrent_info` for a music
torrent: the ordered `info_dict`, the dumped lines split at the first
colon, the post-processed `out` pairs, and the aligned table with its
trailing blank line (line 148).  The `Comment`, `Files` and `Description`
blocks appended on lines 150 to 160 concern no verified claim and are not
represented. -/
structure OriginRecord where
  infoDict : List (String × Value)
  dumpPairs : List (String × String)
  outPairs : List (String × String)
  table : String
  deriving DecidableEq, Repr

/-- The formatting stages of `get_torrent_info` for a music torrent. -/
def buildRecord (hash : Option String) (group : GroupInfo) (torrent : TorrentDetails) :
    OriginRecord :=
  let d := info_dict hash group torrent
  { infoDict := d
    dumpPairs := d.map (fun kv => dump_pair kv.1 kv.2)
    outPairs := out_pairs d
    table := make_table (out_pairs d) ++ "\n" }

/-- `GazelleAPI.get_torrent_info` (`core.py` lines 62 to 148) after the API
request has returned `info`.  Line 102 of the source references the name
`re`, which `core.py` never imports (its imports, lines 1 to 5, are listed
in `coreImports` below), so on a music torrent the original function raises
`NameError` at line 102 before reaching line 104; the formatting stages
below embed lines 64 to 148 as written, which is the behavior the
documentation and the test suite of the repository expect. -/
def get_torrent_info (hash : Option String) (info : TorrentInfoResponse) :
    Except GazelleAPIError OriginRecord :=
  if info.group.categoryName ≠ "Music" then Except.error musicError
  else Except.ok (buildRecord hash info.group info.torrent)

/-- The module-level import list of `core.py` (lines 1 to 5). -/
def coreImports : List String := ["html", "json", "requests", "textwrap", "yaml"]

/-- The module names whose attributes the body of `core.py` references:
`html` (lines 54, 107, 150, 157), `json` (line 47), `re` (line 102),
`requests` (line 31), `textwrap` (lines 152, 159) and `yaml` (lines 139,
155). -/
def coreReferencedModules : List String :=
  ["html", "json", "re", "requests", "textwrap", "yaml"]

/-! ### The batch orchestrator -/

/-- The argparse options of `__main__.py` that the modelled part of
`handle_input_torrent` consults. -/
structure Args where
  ignore_invalid : String
  deduplicate : Bool
  deriving DecidableEq, Repr

/-- Per-input outcome of `handle_input_torrent`: a record was produced and
written, the input was silently dropped by deduplication, the input was
skipped by the failure policy, or the process exited. -/
inductive StepOutcome
  | produced (record : OriginRecord)
  | dedupDropped
  | skipped
  | exited (exitCode : Nat)
  deriving DecidableEq, Repr

/-- Result of one `handle_input_torrent` call: the outcome, the updated
`self.fetched` dictionary (the list of its keys, most recent first), and
the API lookups performed during the call (one or none). -/
structure StepResult where
  outcome : StepOutcome
  fetched : List String
  lookups : List ParseResult
  deriving DecidableEq, Repr

/-- Lines 222 to 259 of `__main__.py` for a successfully parsed input:
deduplication, the API call and the failure policy.  `key` is the id or
hash string stored in `self.fetched`; the source stores it exactly as
parsed (lines 226 and 230), with no normalization.  `api` abstracts
`self.api.get_torrent_info(**parsed)` together with the network: it returns
the formatted record or the `GazelleAPIError` that the call raises (the
error classification itself is modelled by `request` and `get_torrent_info`
above).  Writing the record and running post scripts are I/O and do not
affect the modelled state. -/
def processParsedTorrent (args : Args) (answer : Decision)
    (api : ParseResult → Except GazelleAPIError OriginRecord)
    (fetched : List String) (parsed : ParseResult) (key : String) : StepResult :=
  if args.deduplicate ∧ key ∈ fetched then
    { outcome := StepOutcome.dedupDropped, fetched := fetched, lookups := [] }
  else
    let fetched1 := if args.deduplicate then key :: fetched else fetched
    match api parsed with
    | Except.ok record =>
      { outcome := StepOutcome.produced record, fetched := fetched1, lookups := [parsed] }
    | Except.error e =>
      match handle_api_error args.ignore_invalid answer e with
      | FailureOutcome.skipped =>
        { outcome := StepOutcome.skipped, fetched := fetched1, lookups := [parsed] }
      | FailureOutcome.exited c =>
        { outcome := StepOutcome.exited c, fetched := fetched1, lookups := [parsed] }

/-- Model of `GazelleOrigin.handle_input_torrent` (`__main__.py` lines 206
to 259) for inputs that are not existing filesystem paths. -/
def handle_input_torrent (args : Args) (answer : Decision)
    (api : ParseResult → Except GazelleAPIError OriginRecord)
    (fetched : List String) (torrent : String) : StepResult :=
  match parse_torrent_input torrent with
  | ParseResult.invalid =>
    if handle_invalid args.ignore_invalid answer ≠ Decision.stop then
      { outcome := StepOutcome.skipped, fetched := fetched, lookups := [] }
    else
      { outcome := StepOutcome.exited (EXIT_CODES "hash"), fetched := fetched, lookups := [] }
  | ParseResult.byHash h =>
    processParsedTorrent args answer api fetched (ParseResult.byHash h) h
  | ParseResult.byId i =>
    processParsedTorrent args answer api fetched (ParseResult.byId i) i

/-- `GazelleOrigin.run` (`__main__.py` lines 158 to 160): process the inputs
in order; `sys.exit` aborts the whole run, so processing stops at the first
exited outcome.  Returns the outcome list and all API lookups performed,
starting from a given `self.fetched` state. -/
def runBatch (args : Args) (answer : Decision)
    (api : ParseResult → Except GazelleAPIError OriginRecord) :
    List String → List String → List StepOutcome × List ParseResult
  | [], _ => ([], [])
  | t :: ts, fetched =>
    let r := handle_input_torrent args answer api fetched t
    match r.outcome with
    | StepOutcome.exited c => ([StepOutcome.exited c], r.lookups)
    | o =>
      let rest := runBatch args answer api ts r.fetched
      (o :: rest.1, r.lookups ++ rest.2)

/-- The number of single quote characters in a string (used to state the
quote-removal property of the dump post-processing loop). -/
def quoteCount (s : String) : Nat := s.data.count squote

/-! ### Concrete fixtures used by witness theorems -/

/-- A concrete `musicInfo` with one credited artist. -/
def sampleMusicInfo : MusicInfo :=
  { artists := [{ name := "Sample Artist" }]
    with_ := []
    producer := []
    remixedBy := []
    dj := []
    composers := []
    conductor := [] }

/-- A concrete music release group. -/
def sampleGroup : GroupInfo :=
  { categoryName := "Music"
    name := "Sample Album"
    musicInfo := sampleMusicInfo
    releaseType := 1
    tags := ["rock"]
    year := 2000
    recordLabel := "Sample Label"
    catalogueNumber := "CAT-1"
    wikiImage := "https://example.org/cover.jpg"
    bbBody := "" }

/-- The same release group with a non-music category. -/
def sampleNonMusicGroup : GroupInfo :=
  { sampleGroup with categoryName := "Applications" }

/-- A concrete torrent object. -/
def sampleTorrent : TorrentDetails :=
  { remasterRecordLabel := "Sample Label"
    remasterCatalogueNumber := "CAT-1"
    remasterYear := 2001
    remasterTitle := "Deluxe"
    media := "CD"
    hasLog := true
    logScore := 100
    format := "FLAC"
    encoding := "Lossless"
    filePath := "Sample Album (2001)"
    size := 123456
    fileCount := 2
    infoHash := some "4562B9F4F3A7559BBD4D5ACC477C39D2B6F777B4"
    time := "2020-01-01 00:00:00"
    id := 1225441
    fileList := ""
    description := "" }

/-! ## Helper lemmas: decimal rendering and parsing round-trip -/

theorem digitChar_isDigit {m : Nat} (h : m < 10) : (Nat.digitChar m).isDigit = true := by
  interval_cases m <;> decide

theorem digitChar_val {m : Nat} (h : m < 10) : (Nat.digitChar m).toNat - 48 = m := by
  interval_cases m <;> decide

theorem natChars_ne_nil (n : Nat) : natChars n ≠ [] := by
  rw [natChars]
  split <;> simp

theorem natChars_isDigit (n : Nat) : ∀ c ∈ natChars n, c.isDigit = true := by
  induction n using Nat.strong_induction_on with
  | _ n ih =>
    rw [natChars]
    split
    · next h =>
      intro c hc
      simp only [List.mem_singleton] at hc
      subst hc
      exact digitChar_isDigit h
    · next h =>
      intro c hc
      simp only [List.mem_append, List.mem_singleton] at hc
      rcases hc with hc | hc
      · exact ih (n / 10) (Nat.div_lt_self (by omega) (by omega)) c hc
      · subst hc
        exact digitChar_isDigit (Nat.mod_lt n (by omega))

theorem foldl_digits_natChars (n : Nat) : ∀ a : Nat,
    List.foldl (fun acc c => acc * 10 + (c.toNat - 48)) a (natChars n) =
      a * 10 ^ (natChars n).length + n := by
  induction n using Nat.strong_induction_on with
  | _ n ih =>
    intro a
    rw [natChars]
    split
    · next h =>
      simp only [List.foldl_cons, List.foldl_nil, List.length_singleton, pow_one,
        digitChar_val h]
    · next h =>
      have hd : n / 10 < n := Nat.div_lt_self (by omega) (by omega)
      rw [List.foldl_append, ih (n / 10) hd a]
      have hm : (Nat.digitChar (n % 10)).toNat - 48 = n % 10 :=
        digitChar_val (Nat.mod_lt n (by omega))
      simp only [List.foldl_cons, List.foldl_nil, hm, List.length_append,
        List.length_singleton]
      have hdm : 10 * (n / 10) + n % 10 = n := Nat.div_add_mod n 10
      calc (a * 10 ^ (natChars (n / 10)).length + n / 10) * 10 + n % 10
          = a * (10 ^ (natChars (n / 10)).length * 10) + (10 * (n / 10) + n % 10) := by ring
        _ = a * 10 ^ ((natChars (n / 10)).length + 1) + n := by rw [hdm, pow_succ]

theorem pyIntDigits_natChars (n : Nat) : pyIntDigits (natChars n) = some n := by
  unfold pyIntDigits
  rw [if_pos]
  · have := foldl_digits_natChars n 0
    simp only [Nat.zero_mul, Nat.zero_add] at this
    rw [this]
  · exact ⟨natChars_ne_nil n, by rw [List.all_eq_true]; exact natChars_isDigit n⟩

theorem toDigitsCore_natChars : ∀ (f n : Nat) (ds : List Char), n < 10 ^ (f + 1) →
    Nat.toDigitsCore 10 (f + 1) n ds = natChars n ++ ds := by
  intro f
  induction f with
  | zero =>
    intro n ds h
    have h10 : n < 10 := by simpa using h
    have hz : n / 10 = 0 := Nat.div_eq_of_lt h10
    rw [natChars]
    simp [Nat.toDigitsCore, hz, h10, Nat.mod_eq_of_lt h10]
  | succ f ih =>
    intro n ds h
    by_cases h10 : n < 10
    · have hz : n / 10 = 0 := Nat.div_eq_of_lt h10
      rw [natChars]
      simp [Nat.toDigitsCore, hz, h10, Nat.mod_eq_of_lt h10]
    · have hne : n / 10 ≠ 0 := by
        intro h0
        have hdm : 10 * (n / 10) + n % 10 = n := Nat.div_add_mod n 10
        have hm : n % 10 < 10 := Nat.mod_lt n (by omega)
        omega
      have hlt : n / 10 < 10 ^ (f + 1) := by
        rw [Nat.div_lt_iff_lt_mul (by omega)]
        calc n < 10 ^ (f + 1 + 1) := h
          _ = 10 ^ (f + 1) * 10 := by rw [pow_succ]
      show (if n / 10 = 0 then Nat.digitChar (n % 10) :: ds
          else Nat.toDigitsCore 10 (f + 1) (n / 10) (Nat.digitChar (n % 10) :: ds))
        = natChars n ++ ds
      rw [if_neg hne, ih (n / 10) _ hlt]
      conv_rhs => rw [natChars]
      rw [dif_neg h10]
      simp [List.append_assoc]

theorem repr_data (n : Nat) : (Nat.repr n).data = natChars n := by
  have h : n < 10 ^ (n + 1) :=
    lt_of_lt_of_le (Nat.lt_pow_self (by omega) n)
      (Nat.pow_le_pow_right (by omega) (Nat.le_succ n))
  show (Nat.toDigitsCore 10 (n + 1) n []).asString.data = natChars n
  rw [toDigitsCore_natChars n n [] h]
  simp [List.asString]

/-! ## Helper lemmas: the status split -/

theorem splitStatusGo_no_sep : ∀ (fuel : Nat) (t acc : List Char), t.length ≤ fuel →
    (∀ c ∈ t, c ≠ '(') → splitStatusGo fuel t acc = [acc.reverse ++ t] := by
  intro fuel
  induction fuel with
  | zero =>
    intro t acc h _
    cases t with
    | nil => simp [splitStatusGo]
    | cons c r => simp at h
  | succ f ih =>
    intro t acc h hc
    cases t with
    | nil => simp [splitStatusGo]
    | cons c r =>
      have hcne : ('(' == c) = false := by
        rw [beq_eq_false_iff_ne]
        exact fun e => hc c (by simp) e.symm
      have hpre : statusSep.isPrefixOf (c :: r) = false := by
        simp [statusSep, List.isPrefixOf_cons₂, hcne]
      simp only [splitStatusGo, hpre, Bool.false_eq_true, if_false]
      rw [ih r (c :: acc) (by simpa using h) (fun x hx => hc x (by simp [hx]))]
      simp

theorem splitStatusGo_sep : ∀ (pre : List Char) (fuel : Nat) (t acc : List Char),
    (pre ++ statusSep ++ t).length ≤ fuel →
    (∀ c ∈ pre, c ≠ '(') → (∀ c ∈ t, c ≠ '(') →
    splitStatusGo fuel (pre ++ statusSep ++ t) acc = [acc.reverse ++ pre, t] := by
  intro pre
  induction pre with
  | nil =>
    intro fuel t acc hf _ ht
    cases fuel with
    | zero =>
      simp only [List.nil_append, List.length_append, statusSep, List.length_cons,
        List.length_nil, Nat.le_zero] at hf
      omega
    | succ f =>
      have hfl : t.length ≤ f := by
        simp only [List.nil_append, List.length_append, statusSep, List.length_cons,
          List.length_nil] at hf
        omega
      have hpfx : statusSep.isPrefixOf ('(' :: (['s', 't', 'a', 't', 'u', 's', ' '] ++ t)) = true := by
        rw [List.isPrefixOf_iff_prefix]
        exact List.prefix_append statusSep t
      show (if statusSep.isPrefixOf ('(' :: (['s', 't', 'a', 't', 'u', 's', ' '] ++ t)) = true then
          acc.reverse :: splitStatusGo f ((['s', 't', 'a', 't', 'u', 's', ' '] ++ t).drop 7) []
        else splitStatusGo f (['s', 't', 'a', 't', 'u', 's', ' '] ++ t) ('(' :: acc))
        = [acc.reverse ++ [], t]
      rw [hpfx, if_pos rfl]
      have hdrop : ((['s', 't', 'a', 't', 'u', 's', ' '] : List Char) ++ t).drop 7 = t := by
        rw [show (7 : Nat) = (['s', 't', 'a', 't', 'u', 's', ' '] : List Char).length from rfl,
          List.drop_left]
      rw [hdrop, splitStatusGo_no_sep f t [] hfl ht]
      simp
  | cons c pre ih =>
    intro fuel t acc hf hpre ht
    cases fuel with
    | zero =>
      simp only [List.cons_append, List.length_append, statusSep, List.length_cons,
        List.length_nil, Nat.le_zero] at hf
      omega
    | succ f =>
      have hcne : ('(' == c) = false := by
        rw [beq_eq_false_iff_ne]
        exact fun e => hpre c (by simp) e.symm
      have hpfx : statusSep.isPrefixOf (c :: (pre ++ statusSep ++ t)) = false := by
        simp [statusSep, List.isPrefixOf_cons₂, hcne]
      have hrec := ih f t (c :: acc)
        (by simp only [List.cons_append, List.length_append, List.length_cons] at hf ⊢; omega)
        (fun x hx => hpre x (by simp [hx])) ht
      show (if statusSep.isPrefixOf (c :: (pre ++ statusSep ++ t)) = true then
          acc.reverse :: splitStatusGo f ((pre ++ statusSep ++ t).drop 7) []
        else splitStatusGo f (pre ++ statusSep ++ t) (c :: acc))
        = [acc.reverse ++ c :: pre, t]
      rw [hpfx, if_neg Bool.false_ne_true, hrec]
      simp

theorem isDigit_ne_lparen {c : Char} (h : c.isDigit = true) : c ≠ '(' := by
  intro e
  subst e
  exact absurd h (by decide)

/-- The orchestrator recovers from a `request` error message exactly the
HTTP status that the tracker client put into it. -/
theorem extractStatus_requestError (status : Nat) :
    extractStatus (strOfError (requestError status)) = status := by
  have hdata : (strOfError (requestError status)).data
      = requestMsgPrefixHead.data ++ statusSep ++ (natChars status ++ [')']) := by
    show (requestMsgPrefix ++ Nat.repr status ++ ")").data = _
    rw [String.data_append, String.data_append, repr_data]
    rw [show requestMsgPrefix.data = requestMsgPrefixHead.data ++ statusSep from rfl]
    simp [List.append_assoc]
  have hpre : ∀ c ∈ requestMsgPrefixHead.data, c ≠ '(' := by decide
  have ht : ∀ c ∈ natChars status ++ [')'], c ≠ '(' := by
    intro c hc
    rcases List.mem_append.mp hc with hc | hc
    · exact isDigit_ne_lparen (natChars_isDigit status c hc)
    · simp only [List.mem_singleton] at hc
      subst hc
      decide
  unfold extractStatus pySplitStatus
  rw [hdata, splitStatusGo_sep requestMsgPrefixHead.data _ _ [] (le_refl _) hpre ht]
  simp only [List.reverse_nil, List.nil_append]
  rw [show ([requestMsgPrefixHead.data, natChars status ++ [')']] : List (List Char)).getLastD []
      = natChars status ++ [')'] from rfl,
    List.dropLast_concat, pyIntDigits_natChars]
  rfl

/-! ## Helper lemmas: the resolver -/

theorem parse_hash_of_matches {h : String} (hh : matchesInfoHash h = true) :
    parse_torrent_input h = ParseResult.byHash h := by
  simp [parse_torrent_input, hh]

theorem parse_id_of_matches {n : String} (hn : matchesNumericId n = true)
    (hlen : n.data.length ≠ 40) : parse_torrent_input n = ParseResult.byId n := by
  have hlen' : ¬ n.length = 40 := fun e => hlen e
  have hf : matchesInfoHash n = false := by
    unfold matchesInfoHash
    simp [hlen']
  simp [parse_torrent_input, hf, hn]

/-! ## Claim C1 -/

/-- C1, counterexample: the claim says a `Request` failure with HTTP status
at least 500 is skipped regardless of the policy mode, in particular under
`stop`.  On the code the opposite holds: with policy mode `stop` (and with
any other mode) a 502 `Request` failure exits the process with exit code 6
and is not skipped. -/
theorem c1_counterexample :
    handle_api_error "stop" Decision.cont (requestError 502) = FailureOutcome.exited 6 ∧
    handle_api_error "stop" Decision.cont (requestError 502) ≠ FailureOutcome.skipped ∧
    handle_api_error "continue" Decision.cont (requestError 502) = FailureOutcome.exited 6 := by
  decide

/-- C1, amended: for every lookup failure of kind `Request`, a carried HTTP
status of at least 500 makes the orchestrator exit the process (exit code 6)
regardless of the configured policy mode, while a status below 500 follows
the configured policy mode: exit under a stop decision, skip otherwise. -/
theorem c1_amended (mode : String) (answer : Decision) (status : Nat) :
    (500 ≤ status →
      handle_api_error mode answer (requestError status) = FailureOutcome.exited 6) ∧
    (status < 500 →
      handle_api_error mode answer (requestError status) =
        if handle_invalid mode answer = Decision.stop then FailureOutcome.exited 6
        else FailureOutcome.skipped) := by
  have hs := extractStatus_requestError status
  constructor
  · intro h5
    unfold handle_api_error
    rw [hs]
    have hd : decide (status < 500) = false := decide_eq_false (by omega)
    by_cases hm : handle_invalid mode answer = Decision.stop <;>
      simp [hm, hd, requestError, EXIT_CODES]
  · intro h5
    unfold handle_api_error
    rw [hs]
    have hd : decide (status < 500) = true := decide_eq_true h5
    by_cases hm : handle_invalid mode answer = Decision.stop <;>
      simp [hm, hd, requestError, EXIT_CODES]

/-- C1, witness for the amended theorem at statuses 502 and 404 under the
`continue` policy mode. -/
theorem c1_witness :
    handle_api_error "continue" Decision.cont (requestError 502) = FailureOutcome.exited 6 ∧
    handle_api_error "continue" Decision.cont (requestError 404) = FailureOutcome.skipped := by
  constructor
  · exact (c1_amended "continue" Decision.cont 502).1 (by omega)
  · exact ((c1_amended "continue" Decision.cont 404).2 (by omega)).trans (by decide)

/-! ## Claim C2 -/

/-- C2, counterexample: the claim says that under the `continue` policy a
failure of any kind, including `Unauthorized`, never terminates the process
and all subsequent inputs are processed.  On the code, with policy mode
`continue`, an `Unauthorized` failure on the first input exits the process
with exit code 5 and the second input is never processed: the run produces
a single `exited` outcome and a single lookup. -/
theorem c2_counterexample :
    runBatch { ignore_invalid := "continue", deduplicate := false } Decision.cont
      (fun _ => Except.error (unauthorizedError "This API Key cannot be used to make requests"))
      ["1", "2"] [] =
      ([StepOutcome.exited 5], [ParseResult.byId "1"]) := by
  decide

/-- C2, amended: error kinds `RequestJson` and `Music` respect the
configured policy mode (exit under a stop decision, skip otherwise), and a
policy skip of one input never aborts processing of subsequent inputs; but
an `Unauthorized` failure terminates the process with exit code 5 under
every policy mode, including `continue`. -/
theorem c2_amended (mode : String) (answer : Decision) (e : GazelleAPIError)
    (args : Args) (api : ParseResult → Except GazelleAPIError OriginRecord)
    (t : String) (ts : List String) (fetched : List String) :
    (e.code = "request-json" ∨ e.code = "music" →
      handle_api_error mode answer e =
        if handle_invalid mode answer = Decision.stop then
          FailureOutcome.exited (EXIT_CODES e.code)
        else FailureOutcome.skipped) ∧
    (e.code = "unauthorized" →
      handle_api_error mode answer e = FailureOutcome.exited 5) ∧
    ((handle_input_torrent args answer api fetched t).outcome = StepOutcome.skipped →
      (runBatch args answer api (t :: ts) fetched).1 =
        StepOutcome.skipped ::
          (runBatch args answer api ts (handle_input_torrent args answer api fetched t).fetched).1) := by
  refine ⟨?_, ?_, ?_⟩
  · intro hcode
    unfold handle_api_error
    by_cases hm : handle_invalid mode answer = Decision.stop
    · rcases hcode with hc | hc <;> simp [hm, hc]
    · rcases hcode with hc | hc <;> simp [hm, hc]
  · intro hcode
    unfold handle_api_error
    by_cases hm : handle_invalid mode answer = Decision.stop <;>
      simp [hm, hcode, EXIT_CODES]
  · intro hskip
    simp only [runBatch, hskip]

/-- C2, witness for the amended theorem: a `RequestJson` failure under
`continue` is skipped, an `Unauthorized` failure under `continue` exits
with code 5, and a batch whose first input is skipped continues with the
second input. -/
theorem c2_witness :
    handle_api_error "continue" Decision.cont requestJsonError = FailureOutcome.skipped ∧
    handle_api_error "continue" Decision.cont (unauthorizedError "bad key") =
      FailureOutcome.exited 5 ∧
    (runBatch { ignore_invalid := "continue", deduplicate := false } Decision.cont
        (fun _ => Except.error musicError) ["1", "2"] []).1 =
      StepOutcome.skipped ::
        (runBatch { ignore_invalid := "continue", deduplicate := false } Decision.cont
          (fun _ => Except.error musicError) ["2"]
          (handle_input_torrent { ignore_invalid := "continue", deduplicate := false }
            Decision.cont (fun _ => Except.error musicError) [] "1").fetched).1 := by
  refine ⟨?_, ?_, ?_⟩
  · exact ((c2_amended "continue" Decision.cont requestJsonError
      { ignore_invalid := "continue", deduplicate := false }
      (fun _ => Except.error musicError) "1" [] []).1 (Or.inl rfl)).trans (by decide)
  · exact (c2_amended "continue" Decision.cont (unauthorizedError "bad key")
      { ignore_invalid := "continue", deduplicate := false }
      (fun _ => Except.error musicError) "1" [] []).2.1 rfl
  · exact (c2_amended "continue" Decision.cont requestJsonError
      { ignore_invalid := "continue", deduplicate := false }
      (fun _ => Except.error musicError) "1" ["2"] []).2.2 (by decide)

/-! ## Claim C3 -/

/-- C3, counterexample: the claim says every decimal-digit string resolves
to `ById`, but a string of forty decimal digits matches the info-hash rule
first (decimal digits are hexadecimal digits) and resolves to `ByHash`. -/
theorem c3_counterexample :
    parse_torrent_input "1111111111111111111111111111111111111111" ≠
      ParseResult.byId "1111111111111111111111111111111111111111" ∧
    parse_torrent_input "1111111111111111111111111111111111111111" =
      ParseResult.byHash "1111111111111111111111111111111111111111" := by
  decide

/-- C3, amended: every 40-character hexadecimal string `h` resolves to
`ByHash h`, and every decimal-digit string `n` that is not 40 characters
long (a 40-digit string matches the earlier hexadecimal rule) resolves to
`ById n`. -/
theorem c3_amended (h n : String) :
    (matchesInfoHash h = true → parse_torrent_input h = ParseResult.byHash h) ∧
    (matchesNumericId n = true → n.data.length ≠ 40 →
      parse_torrent_input n = ParseResult.byId n) := by
  exact ⟨fun hh => parse_hash_of_matches hh, fun hn hlen => parse_id_of_matches hn hlen⟩

/-- C3, witness for the amended theorem at the hash and id of the
specification scenarios. -/
theorem c3_witness :
    parse_torrent_input "4562B9F4F3A7559BBD4D5ACC477C39D2B6F777B4" =
      ParseResult.byHash "4562B9F4F3A7559BBD4D5ACC477C39D2B6F777B4" ∧
    parse_torrent_input "1225441" = ParseResult.byId "1225441" := by
  constructor
  · exact (c3_amended "4562B9F4F3A7559BBD4D5ACC477C39D2B6F777B4" "1225441").1 (by decide)
  · exact (c3_amended "4562B9F4F3A7559BBD4D5ACC477C39D2B6F777B4" "1225441").2
      (by decide) (by decide)

/-! ## Claim C4 -/

/-- C4: the file list of a formatted record is meant to be produced by
matching the packed file-list string with `re.finditer` on lines 101 and
102 of `core.py`, but the name `re` is referenced without being imported:
the module import list of `core.py` (lines 1 to 5) does not contain `re`.
On any music-category response the original `get_torrent_info` therefore
raises `NameError` at line 102 instead of producing a record with its file
entries; the repository test suite, which expects formatted records from
`main`, exercises exactly this path. -/
theorem c4_re_not_imported :
    "re" ∈ coreReferencedModules ∧ "re" ∉ coreImports := by decide

/-! ## Claim C5 -/

/-- C5, counterexample: the claim says the deduplication key is the hash
normalized to a fixed letter case, so two inputs whose hashes differ only
in case produce exactly one lookup.  On the code, with deduplication
enabled, the run over the lower-case and upper-case spellings of the same
hash performs two lookups, one per spelling. -/
theorem c5_counterexample :
    (runBatch { ignore_invalid := "continue", deduplicate := true } Decision.cont
      (fun _ => Except.error requestJsonError)
      ["4562b9f4f3a7559bbd4d5acc477c39d2b6f777b4",
       "4562B9F4F3A7559BBD4D5ACC477C39D2B6F777B4"] []).2 =
      [ParseResult.byHash "4562b9f4f3a7559bbd4d5acc477c39d2b6f777b4",
       ParseResult.byHash "4562B9F4F3A7559BBD4D5ACC477C39D2B6F777B4"] := by
  decide

/-- C5, amended: for an input that resolves to `ByHash`, the string checked
against and recorded in the deduplication set is the parsed hash exactly as
the input supplied it — the same case-preserved string as the `LookupKey` —
with no case normalization; a seen hash is dropped without a lookup, and an
unseen hash (in particular a case variant of a seen hash) is recorded and
looked up. -/
theorem c5_amended (args : Args) (answer : Decision)
    (api : ParseResult → Except GazelleAPIError OriginRecord)
    (fetched : List String) (h : String)
    (hdedup : args.deduplicate = true) (hhash : matchesInfoHash h = true) :
    (h ∉ fetched →
      (handle_input_torrent args answer api fetched h).lookups = [ParseResult.byHash h] ∧
      (handle_input_torrent args answer api fetched h).fetched = h :: fetched) ∧
    (h ∈ fetched →
      (handle_input_torrent args answer api fetched h).outcome = StepOutcome.dedupDropped ∧
      (handle_input_torrent args answer api fetched h).lookups = []) := by
  have hp := parse_hash_of_matches hhash
  have hu : handle_input_torrent args answer api fetched h =
      processParsedTorrent args answer api fetched (ParseResult.byHash h) h := by
    unfold handle_input_torrent
    rw [hp]
  constructor
  · intro hmem
    rw [hu]
    unfold processParsedTorrent
    rw [if_neg (fun hc => hmem hc.2)]
    cases api (ParseResult.byHash h) with
    | ok record => exact ⟨rfl, by simp [hdedup]⟩
    | error e =>
      dsimp only
      cases handle_api_error args.ignore_invalid answer e with
      | skipped => exact ⟨rfl, by simp [hdedup]⟩
      | exited c => exact ⟨rfl, by simp [hdedup]⟩
  · intro hmem
    rw [hu]
    unfold processParsedTorrent
    rw [if_pos ⟨hdedup, hmem⟩]
    exact ⟨rfl, rfl⟩

/-- C5, witness for the amended theorem at a concrete lower-case hash with
an empty deduplication set. -/
theorem c5_witness :
    (handle_input_torrent { ignore_invalid := "stop", deduplicate := true } Decision.cont
        (fun _ => Except.error requestJsonError) []
        "4562b9f4f3a7559bbd4d5acc477c39d2b6f777b4").lookups =
      [ParseResult.byHash "4562b9f4f3a7559bbd4d5acc477c39d2b6f777b4"] ∧
    (handle_input_torrent { ignore_invalid := "stop", deduplicate := true } Decision.cont
        (fun _ => Except.error requestJsonError) []
        "4562b9f4f3a7559bbd4d5acc477c39d2b6f777b4").fetched =
      ["4562b9f4f3a7559bbd4d5acc477c39d2b6f777b4"] := by
  have hw := (c5_amended { ignore_invalid := "stop", deduplicate := true } Decision.cont
    (fun _ => Except.error requestJsonError) [] "4562b9f4f3a7559bbd4d5acc477c39d2b6f777b4"
    rfl (by decide)).1 (by decide)
  exact ⟨hw.1, hw.2⟩

/-! ## Claim C6 -/

/-- C6: classification of a lookup response by the tracker client.  An HTTP
status of 401 or 403 raises the `unauthorized` error kind with the
API-provided error text inside the message; any other non-200 status raises
the `request` error kind whose message carries the literal decimal status
code (and the orchestrator parses exactly that status back out); a 200
response whose top-level JSON status field is not `success` raises the
`request-json` error kind; otherwise the `response` payload is returned. -/
theorem c6_request_classification {α : Type} (r : HttpResponse α) :
    (r.status_code = 401 ∨ r.status_code = 403 →
      request r = Except.error (unauthorizedError r.errorJson) ∧
      strOfError (unauthorizedError r.errorJson) = "Authentication error: " ++ r.errorJson ∧
      (unauthorizedError r.errorJson).code = "unauthorized") ∧
    (¬(r.status_code = 401 ∨ r.status_code = 403) → r.status_code ≠ 200 →
      request r = Except.error (requestError r.status_code) ∧
      strOfError (requestError r.status_code) =
        requestMsgPrefix ++ Nat.repr r.status_code ++ ")" ∧
      (requestError r.status_code).code = "request" ∧
      extractStatus (strOfError (requestError r.status_code)) = r.status_code) ∧
    (¬(r.status_code = 401 ∨ r.status_code = 403) → r.status_code = 200 →
      r.jsonStatus ≠ "success" →
      request r = Except.error requestJsonError ∧ requestJsonError.code = "request-json") ∧
    (¬(r.status_code = 401 ∨ r.status_code = 403) → r.status_code = 200 →
      r.jsonStatus = "success" → request r = Except.ok r.response) := by
  refine ⟨?_, ?_, ?_, ?_⟩
  · intro h
    exact ⟨by simp [request, h], rfl, rfl⟩
  · intro h h200
    exact ⟨by simp [request, h, h200], rfl, rfl, extractStatus_requestError r.status_code⟩
  · intro h h200 hjson
    exact ⟨by simp [request, h, h200, hjson], rfl⟩
  · intro h h200 hjson
    simp [request, h, h200, hjson]

/-- C6, witness at concrete responses covering the four branches. -/
theorem c6_witness :
    request (⟨401, "bad key", "failure", 0⟩ : HttpResponse Nat) =
      Except.error (unauthorizedError "bad key") ∧
    request (⟨502, "", "failure", 0⟩ : HttpResponse Nat) =
      Except.error (requestError 502) ∧
    extractStatus (strOfError (requestError 502)) = 502 ∧
    request (⟨200, "", "failure", 0⟩ : HttpResponse Nat) =
      Except.error requestJsonError ∧
    request (⟨200, "", "success", 7⟩ : HttpResponse Nat) = Except.ok 7 := by
  refine ⟨?_, ?_, ?_, ?_, ?_⟩
  · exact ((c6_request_classification _).1 (by decide)).1
  · exact ((c6_request_classification (⟨502, "", "failure", 0⟩ : HttpResponse Nat)).2.1
      (by decide) (by decide)).1
  · exact ((c6_request_classification (⟨502, "", "failure", 0⟩ : HttpResponse Nat)).2.1
      (by decide) (by decide)).2.2.2
  · exact ((c6_request_classification _).2.2.1 (by decide) rfl (by decide)).1
  · exact (c6_request_classification _).2.2.2 (by decide) rfl rfl

/-! ## Claim C7 -/

/-- C7: a response whose release category is not `Music` makes the formatter
fail with the `music` error kind, and no record is produced; a record is
constructed only from a response whose category equals `Music`. -/
theorem c7_music_gate (hash : Option String) (info : TorrentInfoResponse) :
    (info.group.categoryName ≠ "Music" →
      get_torrent_info hash info = Except.error musicError) ∧
    (∀ rec, get_torrent_info hash info = Except.ok rec →
      info.group.categoryName = "Music") ∧
    musicError.code = "music" := by
  refine ⟨?_, ?_, rfl⟩
  · intro hcat
    simp [get_torrent_info, hcat]
  · intro rec hok
    by_contra hcat
    simp [get_torrent_info, hcat] at hok

/-- C7, witness: a concrete non-music response is rejected with the `music`
error, and from a concrete music response the gate certifies the music
category. -/
theorem c7_witness :
    get_torrent_info none ⟨sampleNonMusicGroup, sampleTorrent⟩ = Except.error musicError ∧
    (⟨sampleGroup, sampleTorrent⟩ : TorrentInfoResponse).group.categoryName = "Music" := by
  constructor
  · exact (c7_music_gate none ⟨sampleNonMusicGroup, sampleTorrent⟩).1 (by decide)
  · exact (c7_music_gate none ⟨sampleGroup, sampleTorrent⟩).2.1
      (buildRecord none sampleGroup sampleTorrent) rfl

/-! ## Claim C8 -/

/-- C8: the info-hash field of a formatted record equals the API-reported
`infoHash` value when that key is present; when it is absent, the field
equals the (nonempty) hash used for the lookup when one was supplied; when
neither exists it renders as `Unknown`.  The value stored in the record is
this field with the HTML-unescaping applied to every string value. -/
theorem c8_info_hash (hash : Option String) (group : GroupInfo) (torrent : TorrentDetails) :
    (∀ v, torrent.infoHash = some v → infoHashField torrent.infoHash hash = v) ∧
    (∀ h, torrent.infoHash = none → hash = some h → h ≠ "" →
      infoHashField torrent.infoHash hash = h) ∧
    (torrent.infoHash = none → hash = none →
      infoHashField torrent.infoHash hash = "Unknown") ∧
    (info_dict hash group torrent).lookup "Info hash" =
      some (Value.str (htmlUnescape (infoHashField torrent.infoHash hash))) := by
  refine ⟨?_, ?_, ?_, ?_⟩
  · intro v hv
    simp [infoHashField, hv]
  · intro h hnone hsome hne
    simp [infoHashField, hnone, hsome, hne]
  · intro hnone hnone2
    simp [infoHashField, hnone, hnone2]
  · rfl

/-- C8, witness at concrete inputs covering the three cases, plus the
record entry of a concrete response. -/
theorem c8_witness :
    infoHashField ({ sampleTorrent with infoHash := some "APIHASH" }).infoHash
        (some "LOOKUPHASH") = "APIHASH" ∧
    infoHashField ({ sampleTorrent with infoHash := none }).infoHash
        (some "4562B9F4F3A7559BBD4D5ACC477C39D2B6F777B4") =
      "4562B9F4F3A7559BBD4D5ACC477C39D2B6F777B4" ∧
    infoHashField ({ sampleTorrent with infoHash := none }).infoHash none = "Unknown" ∧
    (info_dict none sampleGroup sampleTorrent).lookup "Info hash" =
      some (Value.str (htmlUnescape (infoHashField sampleTorrent.infoHash none))) := by
  refine ⟨?_, ?_, ?_, ?_⟩
  · exact (c8_info_hash (some "LOOKUPHASH") sampleGroup
      { sampleTorrent with infoHash := some "APIHASH" }).1 "APIHASH" rfl
  · exact (c8_info_hash (some "4562B9F4F3A7559BBD4D5ACC477C39D2B6F777B4") sampleGroup
      { sampleTorrent with infoHash := none }).2.1
      "4562B9F4F3A7559BBD4D5ACC477C39D2B6F777B4" rfl rfl (by decide)
  · exact (c8_info_hash none sampleGroup { sampleTorrent with infoHash := none }).2.2.1 rfl rfl
  · exact (c8_info_hash none sampleGroup sampleTorrent).2.2.2

/-! ## Helper lemmas: string joining and the table key width -/

theorem string_foldl_append (l : List String) : ∀ s : String,
    l.foldl (fun a b => a ++ b) s = s ++ l.foldl (fun a b => a ++ b) "" := by
  induction l with
  | nil => intro s; simp
  | cons a l ih =>
    intro s
    simp only [List.foldl_cons]
    rw [ih (s ++ a), ih ("" ++ a), String.empty_append, String.append_assoc]

theorem string_join_cons (a : String) (l : List String) :
    String.join (a :: l) = a ++ String.join l := by
  show (a :: l).foldl (fun a b => a ++ b) "" = a ++ l.foldl (fun a b => a ++ b) ""
  simp only [List.foldl_cons]
  rw [string_foldl_append l ("" ++ a), String.empty_append]

set_option maxHeartbeats 800000 in
theorem tableKeyWidth_info_dict (hash : Option String) (group : GroupInfo)
    (torrent : TorrentDetails) :
    tableKeyWidth (out_pairs (info_dict hash group torrent)) = 25 := by
  unfold tableKeyWidth out_pairs info_dict
  simp only [List.map_map, List.map_cons, List.map_nil, Function.comp]
  rfl

/-! ## Claim C9 -/

/-- C9: for a response with an empty credited-artist list the artist
summary is the empty string (the join of zero names); in the dumped record
the `Artist` value is the two-quote empty scalar, and in the rendered table
the `Artist` line shows the value `~` rather than a blank. -/
theorem c9_empty_artists (hash : Option String) (group : GroupInfo) (torrent : TorrentDetails)
    (hcat : group.categoryName = "Music") (hempty : group.musicInfo.artists = []) :
    artistSummary group.musicInfo.artists = "" ∧
    ∀ rec, get_torrent_info hash ⟨group, torrent⟩ = Except.ok rec →
      rec.outPairs.lookup "Artist" = some emptyScalar ∧
      ∃ rest, rec.table = tableRow 25 "Artist" emptyScalar ++ rest ∧
        tableRow 25 "Artist" emptyScalar = "Artist:                  ~\n" := by
  constructor
  · rw [hempty]
    rfl
  · intro rec hok
    have hrec : rec = buildRecord hash group torrent := by
      unfold get_torrent_info at hok
      rw [if_neg (by simp [hcat])] at hok
      cases hok
      rfl
    subst hrec
    constructor
    · have hlk : (buildRecord hash group torrent).outPairs.lookup "Artist" =
          some (processedValue "Artist"
            ((dump_pair "Artist"
              (unescapeValue (Value.str (artistSummary group.musicInfo.artists)))).2)) := rfl
      rw [hlk, hempty]
      decide
    · have hkw := tableKeyWidth_info_dict hash group torrent
      have htab : (buildRecord hash group torrent).table =
          String.join ((out_pairs (info_dict hash group torrent)).map
            (fun kv => tableRow (tableKeyWidth (out_pairs (info_dict hash group torrent)))
              kv.1 kv.2)) ++ "\n" := rfl
      obtain ⟨tp, htp⟩ : ∃ tp, out_pairs (info_dict hash group torrent) =
          ("Artist", processedValue "Artist"
            ((dump_pair "Artist"
              (unescapeValue (Value.str (artistSummary group.musicInfo.artists)))).2)) :: tp :=
        ⟨_, rfl⟩
      refine ⟨String.join (tp.map (fun kv => tableRow 25 kv.1 kv.2)) ++ "\n", ?_, by decide⟩
      rw [htab, hkw, htp, List.map_cons, string_join_cons, String.append_assoc]
      rw [hempty]
      rw [show processedValue "Artist"
          ((dump_pair "Artist" (unescapeValue (Value.str (artistSummary [])))).2) = emptyScalar
        from by decide]

/-- C9, witness at a concrete music response with an empty artist list. -/
theorem c9_witness :
    artistSummary ({ sampleGroup with
        musicInfo := { sampleMusicInfo with artists := [] } }).musicInfo.artists = "" ∧
    (buildRecord none { sampleGroup with
        musicInfo := { sampleMusicInfo with artists := [] } } sampleTorrent).outPairs.lookup
      "Artist" = some emptyScalar := by
  have hc := c9_empty_artists none
    { sampleGroup with musicInfo := { sampleMusicInfo with artists := [] } } sampleTorrent
    rfl rfl
  exact ⟨hc.1, (hc.2 _ rfl).1⟩

/-! ## Helper lemmas: quote counting -/

theorem isPySpace_ne_squote {c : Char} (h : isPySpace c = true) : c ≠ squote := by
  intro e
  subst e
  exact absurd h (by decide)

theorem count_squote_dropWhile (l : List Char) :
    (l.dropWhile isPySpace).count squote = l.count squote := by
  induction l with
  | nil => rfl
  | cons c r ih =>
    rw [List.dropWhile_cons]
    by_cases hc : isPySpace c = true
    · rw [if_pos hc, ih]
      have hne : (c == squote) = false := by
        rw [beq_eq_false_iff_ne]
        exact isPySpace_ne_squote hc
      simp [List.count_cons, hne]
    · rw [if_neg hc]

theorem quoteCount_pyStrip (s : String) : quoteCount (pyStrip s) = quoteCount s := by
  unfold quoteCount pyStrip
  show (((s.data.dropWhile isPySpace).reverse.dropWhile isPySpace).reverse).count squote
    = s.data.count squote
  rw [List.count_reverse, count_squote_dropWhile, List.count_reverse,
    count_squote_dropWhile]

theorem quoteCount_removeSingleQuotes (s : String) :
    quoteCount (removeSingleQuotes s) = 0 := by
  unfold quoteCount removeSingleQuotes
  show (s.data.filter (fun c => c ≠ squote)).count squote = 0
  rw [List.count_eq_zero]
  intro hmem
  have := List.of_mem_filter hmem
  simp at this

/-! ## Claim C10 -/

/-- C10: in the dump post-processing loop, every single quote is removed
from the rendered values of exactly the `Uploaded` and `Encoding` fields,
while the value of every other field keeps all its single quotes (the
stripping of surrounding whitespace removes no quote); and the `out` pairs
of every formatted record are exactly the dumped lines transformed by this
per-key processing. -/
theorem c10_quote_removal (k v : String) :
    (k = "Uploaded" ∨ k = "Encoding" → quoteCount (processedValue k v) = 0) ∧
    (¬(k = "Uploaded" ∨ k = "Encoding") → quoteCount (processedValue k v) = quoteCount v) ∧
    (∀ (hash : Option String) (info : TorrentInfoResponse) (rec : OriginRecord),
      get_torrent_info hash info = Except.ok rec →
      rec.outPairs = rec.dumpPairs.map (fun kv => (kv.1, processedValue kv.1 kv.2))) := by
  refine ⟨?_, ?_, ?_⟩
  · intro hk
    unfold processedValue
    rw [if_pos hk, quoteCount_pyStrip, quoteCount_removeSingleQuotes]
  · intro hk
    unfold processedValue
    rw [if_neg hk, quoteCount_pyStrip]
  · intro hash info rec hok
    have hcat : ¬ info.group.categoryName ≠ "Music" := by
      intro hc
      simp [get_torrent_info, hc] at hok
    have hrec : rec = buildRecord hash info.group info.torrent := by
      unfold get_torrent_info at hok
      rw [if_neg hcat] at hok
      cases hok
      rfl
    subst hrec
    show out_pairs (info_dict hash info.group info.torrent) =
      ((info_dict hash info.group info.torrent).map
        (fun kv => dump_pair kv.1 kv.2)).map (fun kv => (kv.1, processedValue kv.1 kv.2))
    rw [List.map_map]
    rfl

/-- C10, witness: a quoted `Uploaded` value loses its quotes, a quoted
`Name` value keeps them, and the concrete record satisfies the pipeline
equation. -/
theorem c10_witness :
    quoteCount (processedValue "Uploaded"
      (String.mk [' ', squote, '2', '0', '2', '0', squote])) = 0 ∧
    quoteCount (processedValue "Name"
      (String.mk [' ', squote, 'a', squote])) =
      quoteCount (String.mk [' ', squote, 'a', squote]) ∧
    (buildRecord none sampleGroup sampleTorrent).outPairs =
      (buildRecord none sampleGroup sampleTorrent).dumpPairs.map
        (fun kv => (kv.1, processedValue kv.1 kv.2)) := by
  refine ⟨?_, ?_, ?_⟩
  · exact (c10_quote_removal "Uploaded" _).1 (Or.inl rfl)
  · exact (c10_quote_removal "Name" _).2.1 (by decide)
  · exact (c10_quote_removal "x" "y").2.2 none ⟨sampleGroup, sampleTorrent⟩ _ rfl

end GazelleOrigin
